import Mathlib

/-
Verification development for the ncku-campus-safety-reporting repository.

The repository contains an Express server (src/server.js, local-disk or
Google-Cloud-Storage photo backends), a map client (src/public/script.js),
and an older local-only server variant (the second part of the script.js
source bundle, referred to below as the "variant" server).  The definitions
below are shallow embeddings of those JavaScript functions: JS strings are
Lean `String`s, `undefined` is `Option.none`, JS truthiness of a string
value is "present and non-empty", the local filesystem is the list of
relative file paths that exist under the server directory, and the side
effects of a request handler are returned as an explicit event list.
-/

namespace CampusSafety

/-! ## JavaScript string primitives -/

/-- Truthiness of a JS string-or-undefined value: `undefined` and `""` are
falsy, every other string is truthy. -/
def jsTruthy : Option String → Bool
  | some s => !(s == "")
  | none => false

/-- JS `a || b` on string-or-undefined values: `a` when truthy, else `b`. -/
def jsOr (a b : Option String) : Option String :=
  if jsTruthy a then a else b

/-- Models `s.toLowerCase().replace(/ /g, '_')` (character-wise on the ASCII
type names used by the repository). -/
def jsFolderName (s : String) : String :=
  String.mk (s.toList.map (fun c => if c = ' ' then '_' else c.toLower))

/-- Models JS `String.prototype.startsWith`. -/
def strStartsWith (s pre : String) : Bool :=
  pre.toList.isPrefixOf s.toList

/-- Helper for `strIncludes`: does `sub` occur as a contiguous sublist? -/
def listIncludes (sub : List Char) : List Char → Bool
  | [] => sub.isPrefixOf []
  | x :: xs => sub.isPrefixOf (x :: xs) || listIncludes sub xs

/-- Models JS `String.prototype.includes`. -/
def strIncludes (s sub : String) : Bool :=
  listIncludes sub.toList s.toList

/-- Split a character list at every occurrence of the character `c`. -/
def splitCharAux (c : Char) : List Char → List Char → List (List Char)
  | [], acc => [acc.reverse]
  | x :: xs, acc =>
    if x = c then acc.reverse :: splitCharAux c xs []
    else splitCharAux c xs (x :: acc)

/-- Models JS `s.split(c)` for a single-character separator. -/
def splitChar (c : Char) (s : String) : List String :=
  (splitCharAux c s.toList []).map String.mk

/-- Models `path.basename(p)`: the part of the path after the last slash. -/
def basenameStr (p : String) : String :=
  (splitChar '/' p).getLastD ""

/-- Models `path.join(__dirname, p)` expressed relative to `__dirname`:
a leading slash in the stored photo reference is stripped, so the result is
the path of the file relative to the server directory. -/
def joinDirname (p : String) : String :=
  if strStartsWith p "/" then String.mk (p.toList.drop 1) else p

/-! ## Folder derivation (server.js 118-150, 171-193; variant 1058-1090, 1256-1259) -/

/-- The three canonical type names (server.js line 121). -/
def standardTypes : List String := ["Road", "Accessible Ramp", "Street Light"]

/-- JS `Array.prototype.includes` applied to a string-or-undefined value:
`includes(undefined)` is `false` for a list of strings. -/
def includesOpt (l : List String) (s? : Option String) : Bool :=
  match s? with
  | some s => l.contains s
  | none => false

/-- Folder chosen by the multer disk-storage `destination` callback
(server.js 118-141, and identically in the variant server): the request
body's `type` must be truthy and one of the standard types to be mapped to
its lower-cased underscore folder; anything else lands in `Other`. -/
def destinationTypeDir : Option String → String
  | some t => if t ≠ "" ∧ t ∈ standardTypes then jsFolderName t else "Other"
  | none => "Other"

/-- Folder chosen inside `uploadToGCS` (server.js 180-185): any truthy
string `typeDir` is lower-cased with spaces replaced by underscores — the
`standardTypes` list declared there is never consulted. -/
def gcsFolderName : Option String → String
  | some t => if t ≠ "" then jsFolderName t else "Other"
  | none => "Other"

/-- Folder chosen by the photo-relocation branch of the variant server's
PUT handler (variant lines 1256-1259). -/
def moveTypeDir : Option String → String
  | some t => if t ∈ standardTypes then jsFolderName t else "Other"
  | none => "Other"

/-! ## C1: folder derivation -/

/-- C1 (counterexample): the claim says every string other than the three
canonical names yields the literal folder `Other` at create, and that the
rule is applied identically at every site; but `uploadToGCS` (used at
create and update under the cloud backend) lower-cases any non-empty type,
so `"Other"` yields `"other"` and `"Custom Spot"` yields `"custom_spot"`,
disagreeing with the multer disk destination. -/
theorem gcs_folder_breaks_claimed_rule :
    gcsFolderName (some "Other") = "other" ∧
    gcsFolderName (some "Other") ≠ "Other" ∧
    gcsFolderName (some "Custom Spot") = "custom_spot" ∧
    destinationTypeDir (some "Custom Spot") = "Other" ∧
    gcsFolderName (some "Custom Spot") ≠ destinationTypeDir (some "Custom Spot") := by
  refine ⟨by decide, by decide, by decide, by decide, by decide⟩

/-- C1 (amended): the multer disk destination and the variant's relocation
branch share one pure deterministic derivation — each canonical name maps
to its lower-cased underscore folder, every other value (including
`"Other"`, the empty string, a missing type, and arbitrary custom text)
maps to the literal folder `Other`, and applying the function twice to the
same string yields the same folder; the GCS upload path instead lower-cases
any non-empty type string. -/
theorem folder_derivation :
    (∀ t? : Option String, destinationTypeDir t? = moveTypeDir t?) ∧
    destinationTypeDir (some "Road") = "road" ∧
    destinationTypeDir (some "Accessible Ramp") = "accessible_ramp" ∧
    destinationTypeDir (some "Street Light") = "street_light" ∧
    (∀ t : String, t ∉ standardTypes → destinationTypeDir (some t) = "Other") ∧
    destinationTypeDir (some "") = "Other" ∧
    destinationTypeDir none = "Other" ∧
    (∀ t? : Option String, destinationTypeDir t? = destinationTypeDir t?) ∧
    (∀ t : String, t ≠ "" → gcsFolderName (some t) = jsFolderName t) := by
  refine ⟨?_, by decide, by decide, by decide, ?_, by decide, by decide, fun _ => rfl, ?_⟩
  · intro t?
    cases t? with
    | none => rfl
    | some t =>
      by_cases hmem : t ∈ standardTypes
      · have ht : t ≠ "" := by
          simp only [standardTypes, List.mem_cons, List.not_mem_nil, or_false] at hmem
          rcases hmem with rfl | rfl | rfl <;> decide
        simp [destinationTypeDir, moveTypeDir, ht, hmem]
      · simp [destinationTypeDir, moveTypeDir, hmem]
  · intro t hmem
    simp [destinationTypeDir, hmem]
  · intro t ht
    simp [gcsFolderName, ht]

/-- C1 (witness): the amended theorem applied at concrete inputs. -/
theorem folder_derivation_witness :
    destinationTypeDir (some "Broken Bench") = "Other" ∧
    gcsFolderName (some "Broken Bench") = jsFolderName "Broken Bench" := by
  exact ⟨folder_derivation.2.2.2.2.1 "Broken Bench" (by decide),
    folder_derivation.2.2.2.2.2.2.2.2 "Broken Bench" (by decide)⟩

/-! ## Data model and filesystem model -/

/-- A finite decimal number `mantissa / 10 ^ fracDigits` — the value class
produced by `parseFloat` on the coordinate strings the client submits.
The handlers only store coordinates and never compute with them, so the
parsed form is kept as-is. -/
structure DecimalNum where
  mantissa : Int
  fracDigits : Nat
deriving DecidableEq

/-- A persisted `Report` document (server.js 75-90): `lat`/`lng` are
mongoose `Number` fields (`none` models an absent field; a `NaN` value can
never be stored because the cast rejects it), the remaining fields are
strings-or-absent. -/
structure ReportRec where
  lat : Option DecimalNum := none
  lng : Option DecimalNum := none
  type : Option String := none
  time : Option String := none
  status : Option String := none
  description : Option String := none
  urgency : Option String := none
  photo : Option String := none
deriving DecidableEq

/-- The multipart request body fields of a POST/PUT request; `none` models
a field absent from the form data. -/
structure ReqBody where
  lat : Option String := none
  lng : Option String := none
  type : Option String := none
  time : Option String := none
  status : Option String := none
  description : Option String := none
  urgency : Option String := none
deriving DecidableEq

/-- An uploaded file after multer's `filename` callback has generated its
stored name (server.js 142-149): only the generated name matters to the
handlers. -/
structure UpFile where
  name : String
deriving DecidableEq

/-- The local filesystem: the list of file paths (relative to the server
directory) that currently exist. -/
abbrev FS := List String

/-- Remove a path from the filesystem (`fs.unlinkSync`). -/
def fsRemove (fs : FS) (p : String) : FS :=
  fs.filter (fun q => q ≠ p)

/-- Create (or overwrite) a file at a path (multer disk write,
`fs.copyFileSync`). -/
def fsAdd (fs : FS) (p : String) : FS :=
  p :: fsRemove fs p

/-- The `deleteFile` helper (server.js 249-258, variant 1116-1126): unlink
the file if it exists, swallowing any unlink error (`unlinkFails` injects
such an error); the filesystem is untouched when the file is absent or the
unlink throws. -/
def deleteFileFS (unlinkFails : Bool) (fs : FS) (p : String) : FS :=
  if fs.contains p then (if unlinkFails then fs else fsRemove fs p) else fs

/-- Path of a file stored by the multer disk backend for a request whose
body carries the given `type` (uploads directory + destination folder +
generated filename). -/
def uploadPath (type? : Option String) (f : UpFile) : String :=
  "uploads/" ++ destinationTypeDir type? ++ "/" ++ f.name

/-- Observable side-effect events of one request, in execution order. -/
inductive Ev where
  | fsWrite (p : String)
  | fsRename (oldP newP : String)
  | fsUnlink (p : String)
  | gcsWrite (url : String)
  | dbSave (photo : Option String)
  | dbDelete
deriving DecidableEq

/-- Result of a POST/PUT request handler: HTTP status, the report returned
in a 2xx body, the resulting local filesystem, and the event trace. -/
structure HRes where
  status : Nat
  report : Option ReportRec
  fs : FS
  events : List Ev
deriving DecidableEq

/-- `true` when every `dbSave` event in the trace is the final event, so
all file-system and cloud-storage operations of the request happen before
the database record is saved. -/
def saveIsFinal : List Ev → Bool
  | [] => true
  | Ev.dbSave _ :: rest => rest.isEmpty
  | _ :: rest => saveIsFinal rest

/-- `true` when the trace contains a `dbSave` event. -/
def hasSave (tr : List Ev) : Bool :=
  tr.any (fun e => match e with | Ev.dbSave _ => true | _ => false)

/-! ## GET /reports (server.js 261-294; variant 1129-1137) -/

/-- Outcome of awaiting `Promise.race([Report.find(), timeoutPromise])`:
either the report list, or a rejection carrying the error's `name` and
`message`.  The 25-second race timeout of server.js rejects with an `Error`
whose message is `"Database operation timed out"`. -/
inductive DbOutcome where
  | ok (reports : List ReportRec)
  | fail (name msg : String)
deriving DecidableEq

/-- The GET /reports handler of server.js (261-294): status code and error
body of the response as a function of the database outcome. -/
def serverGetReports (o : DbOutcome) : Nat × Option String :=
  match o with
  | .ok _ => (200, none)
  | .fail name msg =>
    if msg = "Database operation timed out" then
      (503, some "Database is currently unavailable")
    else if name = "MongooseError" ∧ strIncludes msg "buffering timed out" then
      (503, some "Database connection issue")
    else
      (500, some "Error fetching reports")

/-- The GET /reports handler of the variant server (1129-1137): any
database failure is answered with a 500. -/
def variantGetReports (o : DbOutcome) : Nat × Option String :=
  match o with
  | .ok _ => (200, none)
  | .fail _ _ => (500, some "Error fetching reports")

/-! ## C5: GET /reports under database unavailability -/

/-- C5 (counterexample): the claim says a GET while the database is
unreachable is answered 503, never 500; but the variant server answers
every database failure — including a mongoose buffering timeout, the very
shape an unreachable database produces — with a 500, and server.js answers
500 for a database failure whose shape it does not recognise (a network
error thrown when an established connection drops). -/
theorem get_unavailable_yields_500 :
    variantGetReports (.fail "MongooseError"
      "Operation `reports.find()` buffering timed out after 10000ms") =
      (500, some "Error fetching reports") ∧
    (serverGetReports (.fail "MongoNetworkError"
      "connection 4 to 127.0.0.1:27017 closed")).1 = 500 := by
  exact ⟨rfl, by decide⟩

/-- C5 (amended): server.js answers 503 for exactly the two failure shapes
it recognises — the 25-second race timeout (`"Database operation timed
out"`) and a `MongooseError` whose message includes `"buffering timed
out"` — and 500 for every other database failure; a successful query is a
200; the variant server answers every database failure with a 500. -/
theorem get_reports_status_classification :
    (∀ name msg : String,
      (serverGetReports (.fail name msg)).1 = 503 ↔
        (msg = "Database operation timed out" ∨
          (name = "MongooseError" ∧ strIncludes msg "buffering timed out" = true))) ∧
    (∀ rs : List ReportRec, serverGetReports (.ok rs) = (200, none)) ∧
    (∀ name msg : String, (variantGetReports (.fail name msg)).1 = 500) := by
  refine ⟨?_, fun _ => rfl, fun _ _ => rfl⟩
  intro name msg
  simp only [serverGetReports]
  by_cases h1 : msg = "Database operation timed out"
  · simp [h1]
  · by_cases h2 : name = "MongooseError" ∧ strIncludes msg "buffering timed out"
    · simp [h1, h2]
    · simp [h1, h2]

/-! ## POST /reports (server.js 301-358) -/

/-- Models JS `parseFloat` on the string forms the app submits
(`[+|-]digits[.digits]` prefixes): `none` models `NaN` (no digit found),
and `parseFloat` of an absent field is `parseFloat(undefined) = NaN`. -/
def parseFloatJs (s : String) : Option DecimalNum :=
  let cs := s.toList
  let isNeg := cs.headD ' ' = '-'
  let cs1 := if cs.headD ' ' = '-' ∨ cs.headD ' ' = '+' then cs.drop 1 else cs
  let intPart := cs1.takeWhile Char.isDigit
  let rest := cs1.dropWhile Char.isDigit
  let fracPart := match rest with
    | '.' :: t => t.takeWhile Char.isDigit
    | _ => []
  if intPart.isEmpty ∧ fracPart.isEmpty then none
  else
    let iv : Nat := intPart.foldl (fun a c => 10 * a + (c.toNat - 48)) 0
    let fv : Nat := fracPart.foldl (fun a c => 10 * a + (c.toNat - 48)) 0
    let mant : Int := (iv * 10 ^ fracPart.length + fv : Nat)
    some { mantissa := if isNeg then -mant else mant,
           fracDigits := fracPart.length }

/-- `parseFloat(req.body.x)` for an optional form field. -/
def parseFloatOpt : Option String → Option DecimalNum
  | some s => parseFloatJs s
  | none => none

/-- The POST /reports handler (server.js 301-358).  `gcs` selects the
cloud backend (presence of `GCS_BUCKET_NAME`); `gcsUp` is the outcome of
`uploadToGCS` (the signed or fallback public URL, or a rejection); `now`
is the submission time used when `time` is absent.  Under the local
backend multer's disk storage has already written the uploaded file when
the handler body runs; under the cloud backend multer uses memory storage.
A missing or non-numeric `lat`/`lng` becomes `NaN`, which the mongoose
`Number` cast rejects at `save()`, producing the generic 500; no other
field is validated. -/
def serverPost (gcs : Bool) (gcsUp : Except Unit String) (now : String)
    (body : ReqBody) (file? : Option UpFile) (fs0 : FS) : HRes :=
  let fs := if gcs then fs0 else
    match file? with
    | some f => fsAdd fs0 (uploadPath body.type f)
    | none => fs0
  let ev0 : List Ev := if gcs then [] else
    match file? with
    | some f => [Ev.fsWrite (uploadPath body.type f)]
    | none => []
  let lat? := parseFloatOpt body.lat
  let lng? := parseFloatOpt body.lng
  let base : ReportRec :=
    { lat := lat?, lng := lng?, type := body.type,
      time := jsOr body.time (some now),
      status := jsOr body.status (some "Pending"),
      description := jsOr body.description (some ""),
      urgency := body.urgency, photo := none }
  match file? with
  | none =>
    if lat?.isNone || lng?.isNone then
      { status := 500, report := none, fs := fs, events := ev0 }
    else
      { status := 201, report := some base, fs := fs,
        events := ev0 ++ [Ev.dbSave base.photo] }
  | some f =>
    if gcs then
      match gcsUp with
      | .error _ => { status := 500, report := none, fs := fs, events := ev0 }
      | .ok url =>
        let rec1 := if url ≠ "" then { base with photo := some url } else base
        if lat?.isNone || lng?.isNone then
          { status := 500, report := none, fs := fs,
            events := ev0 ++ [Ev.gcsWrite url] }
        else
          { status := 201, report := some rec1, fs := fs,
            events := ev0 ++ [Ev.gcsWrite url, Ev.dbSave rec1.photo] }
    else
      let rec1 := { base with photo := some ("/" ++ uploadPath body.type f) }
      if lat?.isNone || lng?.isNone then
        { status := 500, report := none, fs := fs, events := ev0 }
      else
        { status := 201, report := some rec1, fs := fs,
          events := ev0 ++ [Ev.dbSave rec1.photo] }

/-! ## C6: POST validation -/

/-- C6 (counterexample): the claim says a POST missing a required field
(`urgency` here) is rejected as a validation error and no report is
created; but the handler persists the report with the field absent and
answers 201. -/
theorem post_missing_urgency_creates_report :
    (serverPost false (Except.ok "") "2024-05-01T10:00"
        { lat := some "22.99", lng := some "120.21", type := some "Road" }
        none []).status = 201 ∧
    (serverPost false (Except.ok "") "2024-05-01T10:00"
        { lat := some "22.99", lng := some "120.21", type := some "Road" }
        none []).report.map ReportRec.urgency = some none ∧
    hasSave (serverPost false (Except.ok "") "2024-05-01T10:00"
        { lat := some "22.99", lng := some "120.21", type := some "Road" }
        none []).events = true := by
  refine ⟨by decide, by decide, by decide⟩

/-- C6 (amended): the server performs no pre-persistence validation.
A missing or unparsable `lat`/`lng` is the only rejection, and it surfaces
as the mongoose cast failing inside `save()` — a generic 500
"Error saving report", not a descriptive validation message — with no
record persisted; any request with parsable coordinates is persisted with
a 201 even when `type` or `urgency` is missing (the only required-field
checks live in the client form). -/
theorem post_no_validation (gcs : Bool) (gcsUp : Except Unit String)
    (now : String) (body : ReqBody) (file? : Option UpFile) (fs0 : FS) :
    ((parseFloatOpt body.lat = none ∨ parseFloatOpt body.lng = none) →
      (serverPost gcs gcsUp now body file? fs0).status = 500 ∧
      (serverPost gcs gcsUp now body file? fs0).report = none ∧
      hasSave (serverPost gcs gcsUp now body file? fs0).events = false) ∧
    (∀ ql qr : DecimalNum, parseFloatOpt body.lat = some ql →
      parseFloatOpt body.lng = some qr → file? = none → gcs = false →
      (serverPost gcs gcsUp now body file? fs0).status = 201 ∧
      (serverPost gcs gcsUp now body file? fs0).report = some
        { lat := some ql, lng := some qr, type := body.type,
          time := jsOr body.time (some now),
          status := jsOr body.status (some "Pending"),
          description := jsOr body.description (some ""),
          urgency := body.urgency, photo := none }) := by
  constructor
  · intro hnan
    have hb : ((parseFloatOpt body.lat).isNone || (parseFloatOpt body.lng).isNone) = true := by
      rcases hnan with h | h <;> simp [h]
    unfold serverPost
    cases file? with
    | none => simp [hb, hasSave]
    | some f =>
      cases gcs with
      | false => simp [hb, hasSave]
      | true =>
        cases gcsUp with
        | error e => simp [hasSave]
        | ok url => simp [hb, hasSave, List.any_append]
  · intro ql qr hql hqr hfile hgcs
    subst hfile; subst hgcs
    unfold serverPost
    simp [hql, hqr]

/-- C6 (witness): the amended theorem applied at concrete inputs — an
unparsable latitude is a 500 with nothing saved, and a request missing
`urgency` is persisted with a 201. -/
theorem post_no_validation_witness :
    ((serverPost false (Except.ok "") "T"
        { lat := some "abc", lng := some "1" } none []).status = 500 ∧
      (serverPost false (Except.ok "") "T"
        { lat := some "abc", lng := some "1" } none []).report = none ∧
      hasSave (serverPost false (Except.ok "") "T"
        { lat := some "abc", lng := some "1" } none []).events = false) ∧
    ((serverPost false (Except.ok "") "T"
        { lat := some "1", lng := some "2", urgency := none } none []).status = 201 ∧
      (serverPost false (Except.ok "") "T"
        { lat := some "1", lng := some "2", urgency := none } none []).report = some
        { lat := some ⟨1, 0⟩, lng := some ⟨2, 0⟩, type := none,
          time := some "T", status := some "Pending",
          description := some "", urgency := none, photo := none }) := by
  constructor
  · exact (post_no_validation false (Except.ok "") "T"
      { lat := some "abc", lng := some "1" } none []).1 (Or.inl (by decide))
  · exact (post_no_validation false (Except.ok "") "T"
      { lat := some "1", lng := some "2", urgency := none } none []).2 ⟨1, 0⟩ ⟨2, 0⟩
      (by decide) (by decide) rfl rfl

/-! ## PUT /reports/:id (server.js 361-424; variant 1199-1304) -/

/-- The field merge both PUT handlers perform (server.js 381-385, variant
1228-1232): each supplied-and-truthy body field overrides, everything else
keeps its stored value (`new Date(req.body.time)` is modelled as the
identity on the submitted time string). -/
def mergeBody (report : ReportRec) (body : ReqBody) : ReportRec :=
  { report with
    type := jsOr body.type report.type
    time := jsOr body.time report.time
    status := jsOr body.status report.status
    description := jsOr body.description report.description
    urgency := jsOr body.urgency report.urgency }

/-- The PUT handler of server.js (361-424).  Multer runs before the handler
body: under the local backend it has already written any uploaded file to
the folder derived from the request's `type`; under the cloud backend it
buffers in memory.  The handler then looks the report up (404 when absent),
merges the body fields, and — only when a new file is attached — uploads to
GCS (failure is the 500 catch, nothing saved) or deletes the old local file
and stores the new path.  It contains no relocation logic for a type change
without a new file. -/
def serverPut (gcs : Bool) (gcsUp : Except Unit String) (unlinkFails : Bool)
    (old? : Option ReportRec) (body : ReqBody) (file? : Option UpFile)
    (fs0 : FS) : HRes :=
  let fs := if gcs then fs0 else
    match file? with
    | some f => fsAdd fs0 (uploadPath body.type f)
    | none => fs0
  let ev0 : List Ev := if gcs then [] else
    match file? with
    | some f => [Ev.fsWrite (uploadPath body.type f)]
    | none => []
  match old? with
  | none => { status := 404, report := none, fs := fs, events := ev0 }
  | some report =>
    let r1 := mergeBody report body
    match file? with
    | none =>
      { status := 200, report := some r1, fs := fs,
        events := ev0 ++ [Ev.dbSave r1.photo] }
    | some f =>
      if gcs then
        match gcsUp with
        | .error _ => { status := 500, report := none, fs := fs, events := ev0 }
        | .ok url =>
          let r2 := if url ≠ "" then { r1 with photo := some url } else r1
          { status := 200, report := some r2, fs := fs,
            events := ev0 ++ [Ev.gcsWrite url, Ev.dbSave r2.photo] }
      else
        let delOld : Bool :=
          match report.photo with
          | some p => !(p == "") && strStartsWith p "/"
          | none => false
        let fs1 := if delOld then
            deleteFileFS unlinkFails fs (joinDirname (report.photo.getD ""))
          else fs
        let ev1 := ev0 ++ (if delOld then
            [Ev.fsUnlink (joinDirname (report.photo.getD ""))] else [])
        let newRef := "/" ++ uploadPath body.type f
        { status := 200, report := some { r1 with photo := some newRef },
          fs := fs1, events := ev1 ++ [Ev.dbSave (some newRef)] }

/-- The PUT handler of the variant server (1199-1304), local disk only.
Beyond the shared merge it computes `typeChanged` (1222-1225) and, when no
new file is attached but the type changed and a photo exists, relocates the
photo file: `fs.renameSync` first, and if that throws (`renameFails`),
`fs.copyFileSync` followed by `deleteFile` of the original; a throwing
`copyFileSync` (`copyFails`) propagates to the catch, answering 500 with
nothing saved.  A missing original file only logs a warning. -/
def variantPut (old? : Option ReportRec) (body : ReqBody)
    (file? : Option UpFile) (renameFails copyFails unlinkFails : Bool)
    (fs0 : FS) : HRes :=
  let fs := match file? with
    | some f => fsAdd fs0 (uploadPath body.type f)
    | none => fs0
  let ev0 : List Ev := match file? with
    | some f => [Ev.fsWrite (uploadPath body.type f)]
    | none => []
  match old? with
  | none => { status := 404, report := none, fs := fs, events := ev0 }
  | some report =>
    let originalTypeIsStandard := includesOpt standardTypes report.type
    let newTypeIsStandard := jsTruthy body.type && includesOpt standardTypes body.type
    let typeChanged := (originalTypeIsStandard != newTypeIsStandard) ||
      (originalTypeIsStandard && newTypeIsStandard && !(report.type == body.type))
    let r1 := mergeBody report body
    match file? with
    | some f =>
      let delOld := jsTruthy report.photo
      let oldP := joinDirname (report.photo.getD "")
      let fs1 := if delOld then deleteFileFS unlinkFails fs oldP else fs
      let ev1 := ev0 ++ (if delOld then [Ev.fsUnlink oldP] else [])
      let newRef := "/" ++ uploadPath body.type f
      { status := 200, report := some { r1 with photo := some newRef },
        fs := fs1, events := ev1 ++ [Ev.dbSave (some newRef)] }
    | none =>
      if typeChanged && jsTruthy report.photo then
        let ph := report.photo.getD ""
        let oldPhotoPath := joinDirname ph
        let oldPhotoName := basenameStr ph
        let newTypeDir := moveTypeDir body.type
        let newPhotoPath := "uploads/" ++ newTypeDir ++ "/" ++ oldPhotoName
        if fs.contains oldPhotoPath then
          if !renameFails then
            { status := 200,
              report := some { r1 with photo := some ("/" ++ newPhotoPath) },
              fs := fsAdd (fsRemove fs oldPhotoPath) newPhotoPath,
              events := ev0 ++ [Ev.fsRename oldPhotoPath newPhotoPath,
                Ev.dbSave (some ("/" ++ newPhotoPath))] }
          else if !copyFails then
            { status := 200,
              report := some { r1 with photo := some ("/" ++ newPhotoPath) },
              fs := deleteFileFS unlinkFails (fsAdd fs newPhotoPath) oldPhotoPath,
              events := ev0 ++ [Ev.fsWrite newPhotoPath, Ev.fsUnlink oldPhotoPath,
                Ev.dbSave (some ("/" ++ newPhotoPath))] }
          else
            { status := 500, report := none, fs := fs, events := ev0 }
        else
          { status := 200, report := some r1, fs := fs,
            events := ev0 ++ [Ev.dbSave r1.photo] }
      else
        { status := 200, report := some r1, fs := fs,
          events := ev0 ++ [Ev.dbSave r1.photo] }

/-- The photo-lifecycle decision of the server.js PUT handler as a pure
function of the backend, the upload outcome, the stored photo, the
submitted `type`, and the attached file — and of nothing else. -/
def photoDecision (gcs : Bool) (gcsUp : Except Unit String)
    (oldPhoto : Option String) (bodyType : Option String)
    (file? : Option UpFile) : Option String :=
  match file? with
  | none => oldPhoto
  | some f =>
    if gcs then
      match gcsUp with
      | .ok url => if url ≠ "" then some url else oldPhoto
      | .error _ => oldPhoto
    else some ("/" ++ uploadPath bodyType f)

theorem jsOr_none (b : Option String) : jsOr none b = b := rfl

theorem jsOr_empty (b : Option String) : jsOr (some "") b = b := rfl

/-- Field projections of the report a successful server.js PUT returns:
every non-photo field comes from the shared merge (which never touches
`lat`/`lng`), and the photo is the lifecycle decision. -/
theorem serverPut_report_fields (gcs : Bool) (gcsUp : Except Unit String)
    (unlinkFails : Bool) (old : ReportRec) (body : ReqBody)
    (file? : Option UpFile) (fs0 : FS) (r : ReportRec)
    (h : (serverPut gcs gcsUp unlinkFails (some old) body file? fs0).report = some r) :
    r.type = (mergeBody old body).type ∧
    r.time = (mergeBody old body).time ∧
    r.status = (mergeBody old body).status ∧
    r.description = (mergeBody old body).description ∧
    r.urgency = (mergeBody old body).urgency ∧
    r.lat = old.lat ∧ r.lng = old.lng ∧
    r.photo = photoDecision gcs gcsUp old.photo body.type file? := by
  unfold serverPut at h
  cases file? with
  | none =>
    simp only [Option.some.injEq] at h
    subst h
    simp [mergeBody, photoDecision]
  | some f =>
    cases gcs with
    | false =>
      simp only [Bool.false_eq_true, if_false, Option.some.injEq] at h
      subst h
      simp [mergeBody, photoDecision]
    | true =>
      cases gcsUp with
      | error e => simp at h
      | ok url =>
        by_cases hurl : url = ""
        · simp [hurl] at h
          subst h
          simp [mergeBody, photoDecision, hurl]
        · simp [hurl] at h
          subst h
          simp [mergeBody, photoDecision, hurl]

/-- Field projections of the report a successful variant PUT returns:
non-photo fields always come from the shared merge, and `lat`/`lng` are
never touched. -/
theorem variantPut_report_fields (old : ReportRec) (body : ReqBody)
    (file? : Option UpFile) (renameFails copyFails unlinkFails : Bool)
    (fs0 : FS) (r : ReportRec)
    (h : (variantPut (some old) body file? renameFails copyFails unlinkFails fs0).report
      = some r) :
    r.type = (mergeBody old body).type ∧
    r.time = (mergeBody old body).time ∧
    r.status = (mergeBody old body).status ∧
    r.description = (mergeBody old body).description ∧
    r.urgency = (mergeBody old body).urgency ∧
    r.lat = old.lat ∧ r.lng = old.lng := by
  cases file? with
  | some f =>
    simp only [variantPut, Option.some.injEq] at h
    subst h
    simp [mergeBody]
  | none =>
    simp only [variantPut] at h
    repeat' split at h
    all_goals
      first
      | (simp only [Option.some.injEq] at h; subst h; simp [mergeBody])
      | simp at h

/-! ## C4: PUT on a nonexistent id -/

/-- C4 (counterexample): the claim says a PUT whose id matches no report
performs no file-system side effects; but multer's disk storage runs
before the id lookup, so a request with an attached file writes that
file even though the response is a 404 — starting from an empty
filesystem, the file `uploads/road/x.jpg` exists afterwards. -/
theorem put_not_found_writes_file :
    (serverPut false (Except.ok "") false none { type := some "Road" }
      (some ⟨"x.jpg"⟩) []).status = 404 ∧
    (serverPut false (Except.ok "") false none { type := some "Road" }
      (some ⟨"x.jpg"⟩) []).fs = ["uploads/road/x.jpg"] ∧
    (serverPut false (Except.ok "") false none { type := some "Road" }
      (some ⟨"x.jpg"⟩) []).fs ≠ [] := by
  refine ⟨by decide, by decide, by decide⟩

/-- C4 (amended): a PUT whose id matches no report is answered 404 with
nothing saved; it performs no file-system side effect when no file is
attached or when the cloud backend buffers the upload in memory, but under
the local backend an attached file has already been written by multer to
the folder derived from the request's `type`, and that orphan write is the
only side effect. -/
theorem put_not_found (gcs : Bool) (gcsUp : Except Unit String)
    (unlinkFails : Bool) (body : ReqBody) (file? : Option UpFile) (fs0 : FS) :
    (serverPut gcs gcsUp unlinkFails none body file? fs0).status = 404 ∧
    (serverPut gcs gcsUp unlinkFails none body file? fs0).report = none ∧
    hasSave (serverPut gcs gcsUp unlinkFails none body file? fs0).events = false ∧
    (file? = none →
      (serverPut gcs gcsUp unlinkFails none body file? fs0).fs = fs0 ∧
      (serverPut gcs gcsUp unlinkFails none body file? fs0).events = []) ∧
    (gcs = true → (serverPut gcs gcsUp unlinkFails none body file? fs0).fs = fs0) ∧
    (∀ f : UpFile, file? = some f → gcs = false →
      (serverPut gcs gcsUp unlinkFails none body file? fs0).fs
        = fsAdd fs0 (uploadPath body.type f) ∧
      (serverPut gcs gcsUp unlinkFails none body file? fs0).events
        = [Ev.fsWrite (uploadPath body.type f)]) := by
  unfold serverPut
  cases gcs with
  | false =>
    cases file? with
    | none => simp [hasSave]
    | some f => simp [hasSave]
  | true =>
    cases file? with
    | none => simp [hasSave]
    | some f => simp [hasSave]

/-- C4 (witness): the amended theorem applied at concrete inputs. -/
theorem put_not_found_witness :
    (serverPut false (Except.ok "") false none { type := some "Road" } none
      ["uploads/other/a.jpg"]).fs = ["uploads/other/a.jpg"] ∧
    (serverPut true (Except.ok "u") false none { type := some "Road" }
      (some ⟨"b.jpg"⟩) []).fs = [] := by
  exact ⟨((put_not_found false (Except.ok "") false { type := some "Road" } none
      ["uploads/other/a.jpg"]).2.2.2.1 rfl).1,
    (put_not_found true (Except.ok "u") false { type := some "Road" }
      (some ⟨"b.jpg"⟩) []).2.2.2.2.1 rfl⟩

/-! ## C7: partial-update semantics -/

/-- C7 (confirmed): on a successful PUT of an existing report, every field
omitted from the body keeps its previous persisted value (`lat`/`lng` are
never updated at all), and the final `photo` is exactly the photo-lifecycle
decision computed from the backend, the upload outcome, the stored photo,
the submitted `type`, and the attached file. -/
theorem put_partial_update (gcs : Bool) (gcsUp : Except Unit String)
    (unlinkFails : Bool) (old : ReportRec) (body : ReqBody)
    (file? : Option UpFile) (fs0 : FS) (r : ReportRec)
    (h : (serverPut gcs gcsUp unlinkFails (some old) body file? fs0).report = some r) :
    (body.type = none → r.type = old.type) ∧
    (body.time = none → r.time = old.time) ∧
    (body.status = none → r.status = old.status) ∧
    (body.description = none → r.description = old.description) ∧
    (body.urgency = none → r.urgency = old.urgency) ∧
    r.lat = old.lat ∧ r.lng = old.lng ∧
    r.photo = photoDecision gcs gcsUp old.photo body.type file? := by
  obtain ⟨h1, h2, h3, h4, h5, h6, h7, h8⟩ :=
    serverPut_report_fields gcs gcsUp unlinkFails old body file? fs0 r h
  refine ⟨?_, ?_, ?_, ?_, ?_, h6, h7, h8⟩
  · intro hb; rw [h1, mergeBody]; simp [hb, jsOr_none]
  · intro hb; rw [h2, mergeBody]; simp [hb, jsOr_none]
  · intro hb; rw [h3, mergeBody]; simp [hb, jsOr_none]
  · intro hb; rw [h4, mergeBody]; simp [hb, jsOr_none]
  · intro hb; rw [h5, mergeBody]; simp [hb, jsOr_none]

/-- C7 (witness): the confirmed theorem applied at a concrete input — a
body supplying only `status` leaves `type`, `description`, `urgency` and
`photo` untouched. -/
theorem put_partial_update_witness :
    (serverPut false (Except.ok "") false
        (some { type := some "Road", status := some "Pending",
                description := some "d", urgency := some "Low",
                photo := some "/uploads/road/a.jpg" })
        { status := some "Fixed" } none []).report = some
      { type := some "Road", status := some "Fixed",
        description := some "d", urgency := some "Low",
        photo := some "/uploads/road/a.jpg" } ∧
    (some "/uploads/road/a.jpg" : Option String) =
      photoDecision false (Except.ok "") (some "/uploads/road/a.jpg")
        none none := by
  constructor
  · decide
  · exact ((put_partial_update false (Except.ok "") false
      { type := some "Road", status := some "Pending",
        description := some "d", urgency := some "Low",
        photo := some "/uploads/road/a.jpg" }
      { status := some "Fixed" } none []
      { type := some "Road", status := some "Fixed",
        description := some "d", urgency := some "Low",
        photo := some "/uploads/road/a.jpg" } (by decide)).2.2.2.2.2.2.2).symm

/-! ## C9: empty-string fields are ignored by updates -/

/-- C9 (confirmed): in both PUT handlers, a non-photo field supplied as
the empty string is falsy under the `||` merge, so the persisted value of
`type`, `status`, `description`, and `urgency` equals the previous stored
value — an update can never clear one of these fields to empty. -/
theorem put_empty_string_retains :
    (∀ (gcs : Bool) (gcsUp : Except Unit String) (unlinkFails : Bool)
      (old : ReportRec) (body : ReqBody) (file? : Option UpFile) (fs0 : FS)
      (r : ReportRec),
      (serverPut gcs gcsUp unlinkFails (some old) body file? fs0).report = some r →
      (body.type = some "" → r.type = old.type) ∧
      (body.status = some "" → r.status = old.status) ∧
      (body.description = some "" → r.description = old.description) ∧
      (body.urgency = some "" → r.urgency = old.urgency)) ∧
    (∀ (old : ReportRec) (body : ReqBody) (file? : Option UpFile)
      (renameFails copyFails unlinkFails : Bool) (fs0 : FS) (r : ReportRec),
      (variantPut (some old) body file? renameFails copyFails unlinkFails fs0).report
        = some r →
      (body.type = some "" → r.type = old.type) ∧
      (body.status = some "" → r.status = old.status) ∧
      (body.description = some "" → r.description = old.description) ∧
      (body.urgency = some "" → r.urgency = old.urgency)) := by
  constructor
  · intro gcs gcsUp unlinkFails old body file? fs0 r h
    obtain ⟨h1, _, h3, h4, h5, _, _, _⟩ :=
      serverPut_report_fields gcs gcsUp unlinkFails old body file? fs0 r h
    refine ⟨?_, ?_, ?_, ?_⟩
    · intro hb; rw [h1, mergeBody]; simp [hb, jsOr_empty]
    · intro hb; rw [h3, mergeBody]; simp [hb, jsOr_empty]
    · intro hb; rw [h4, mergeBody]; simp [hb, jsOr_empty]
    · intro hb; rw [h5, mergeBody]; simp [hb, jsOr_empty]
  · intro old body file? renameFails copyFails unlinkFails fs0 r h
    obtain ⟨h1, _, h3, h4, h5, _, _⟩ :=
      variantPut_report_fields old body file? renameFails copyFails unlinkFails fs0 r h
    refine ⟨?_, ?_, ?_, ?_⟩
    · intro hb; rw [h1, mergeBody]; simp [hb, jsOr_empty]
    · intro hb; rw [h3, mergeBody]; simp [hb, jsOr_empty]
    · intro hb; rw [h4, mergeBody]; simp [hb, jsOr_empty]
    · intro hb; rw [h5, mergeBody]; simp [hb, jsOr_empty]

/-- A sample stored report used by the concrete witnesses below. -/
def sampleReport : ReportRec :=
  { type := some "Road", status := some "Pending",
    description := some "d", urgency := some "Low",
    photo := some "/uploads/road/a.jpg" }

/-- A request body supplying every non-photo field as the empty string. -/
def emptyFieldsBody : ReqBody :=
  { type := some "", status := some "", description := some "",
    urgency := some "" }

/-- C9 (witness): the confirmed theorem applied at a concrete input — an
update supplying every non-photo field as the empty string returns the
stored report unchanged, and both handler conclusions instantiate. -/
theorem put_empty_string_retains_witness :
    (serverPut false (Except.ok "") false (some sampleReport) emptyFieldsBody
        none []).report = some sampleReport ∧
    sampleReport.type = sampleReport.type ∧
    (variantPut (some sampleReport) emptyFieldsBody none false false false
        []).report = some sampleReport ∧
    sampleReport.urgency = sampleReport.urgency := by
  refine ⟨by decide, ?_, by decide, ?_⟩
  · exact (put_empty_string_retains.1 false (Except.ok "") false sampleReport
      emptyFieldsBody none [] sampleReport (by decide)).1 rfl
  · exact (put_empty_string_retains.2 sampleReport emptyFieldsBody none
      false false false [] sampleReport (by decide)).2.2.2 rfl

/-! ## C2: photo relocation on type change -/

theorem fs_contains_iff (fs : FS) (p : String) :
    fs.contains p = true ↔ p ∈ fs := by
  simp [List.contains, List.elem_iff]

theorem mem_fsRemove {fs : FS} {p q : String} :
    q ∈ fsRemove fs p ↔ q ∈ fs ∧ q ≠ p := by
  simp [fsRemove, List.mem_filter]

theorem mem_fsAdd {fs : FS} {p q : String} :
    q ∈ fsAdd fs p ↔ q = p ∨ (q ∈ fs ∧ q ≠ p) := by
  simp [fsAdd, mem_fsRemove, List.mem_cons]

/-- Two `uploads/<dir>/<name>` paths with folders of different lengths are
different strings. -/
theorem path_ne_of_dir_len (d1 d2 name : String) (h : d1.length ≠ d2.length) :
    ("uploads/" ++ d1 ++ "/" ++ name) ≠ ("uploads/" ++ d2 ++ "/" ++ name) := by
  intro he
  have hl := congrArg String.length he
  simp only [String.length_append] at hl
  omega

theorem moveTypeDir_not_std {t : String} (h : t ∉ standardTypes) :
    moveTypeDir (some t) = "Other" := by
  simp [moveTypeDir, h]

/-- C2 (counterexample): the claim says every local-backend update with no
file attached, a changed `type`, and a photo present relocates the photo
file and updates the stored path; but the PUT handler of src/server.js has
no relocation branch at all — changing the type of a report whose photo is
`/uploads/road/p.jpg` from `"Road"` to `"Other"` leaves the file under
`uploads/road/` and the stored `photo` path unchanged. -/
theorem serverPut_does_not_relocate :
    (serverPut false (Except.ok "") false
      (some { type := some "Road", photo := some "/uploads/road/p.jpg" })
      { type := some "Other" } none ["uploads/road/p.jpg"]).status = 200 ∧
    (serverPut false (Except.ok "") false
      (some { type := some "Road", photo := some "/uploads/road/p.jpg" })
      { type := some "Other" } none ["uploads/road/p.jpg"]).report.map
      ReportRec.photo = some (some "/uploads/road/p.jpg") ∧
    (serverPut false (Except.ok "") false
      (some { type := some "Road", photo := some "/uploads/road/p.jpg" })
      { type := some "Other" } none ["uploads/road/p.jpg"]).fs
      = ["uploads/road/p.jpg"] ∧
    (serverPut false (Except.ok "") false
      (some { type := some "Road", photo := some "/uploads/road/p.jpg" })
      { type := some "Other" } none ["uploads/road/p.jpg"]).report.map
      ReportRec.type = some (some "Other") := by
  refine ⟨by decide, by decide, by decide, by decide⟩

/-- C2 (amended): the relocation behaviour the claim describes is
implemented only by the variant server's PUT handler.  For an update with
no file attached, a supplied non-empty new `type` differing from the
stored one, and a stored photo lying in the folder derived from the old
type: when the file exists, the response is 200, the stored `photo` is the
path under the new type's folder with the filename preserved, that file
exists afterwards, and (unless the two types map to the same folder) the
old path is gone — identically for the `renameSync` path and the
copy-then-delete fallback; when the file is missing, the handler logs,
leaves `photo` and the filesystem unchanged, and still answers 200.
src/server.js's own PUT handler performs no relocation (see the
counterexample). -/
theorem variantPut_relocates_photo (old : ReportRec) (body : ReqBody)
    (renameFails : Bool) (fs0 : FS) (t0 t ph name : String)
    (htype : old.type = some t0)
    (hbtype : body.type = some t)
    (htne : t ≠ "")
    (hchange : t ≠ t0)
    (hph : old.photo = some ph)
    (hphne : ph ≠ "")
    (hjoin : joinDirname ph = "uploads/" ++ moveTypeDir (some t0) ++ "/" ++ name)
    (hphform : ph = "/" ++ ("uploads/" ++ moveTypeDir (some t0) ++ "/" ++ name))
    (hbase : basenameStr ph = name) :
    (("uploads/" ++ moveTypeDir (some t0) ++ "/" ++ name) ∈ fs0 →
      (variantPut (some old) body none renameFails false false fs0).status = 200 ∧
      (variantPut (some old) body none renameFails false false fs0).report.map
        ReportRec.photo
        = some (some ("/" ++ ("uploads/" ++ moveTypeDir (some t) ++ "/" ++ name))) ∧
      ("uploads/" ++ moveTypeDir (some t) ++ "/" ++ name)
        ∈ (variantPut (some old) body none renameFails false false fs0).fs ∧
      (moveTypeDir (some t0) = moveTypeDir (some t) ∨
        ("uploads/" ++ moveTypeDir (some t0) ++ "/" ++ name)
          ∉ (variantPut (some old) body none renameFails false false fs0).fs)) ∧
    (("uploads/" ++ moveTypeDir (some t0) ++ "/" ++ name) ∉ fs0 →
      (variantPut (some old) body none renameFails false false fs0).status = 200 ∧
      (variantPut (some old) body none renameFails false false fs0).report.map
        ReportRec.photo = some old.photo ∧
      (variantPut (some old) body none renameFails false false fs0).fs = fs0) := by
  have htrph : jsTruthy (some ph) = true := by simp [jsTruthy, hphne]
  have hjt : jsTruthy (some t) = true := by simp [jsTruthy, htne]
  have hbeq : ((some t0 : Option String) == some t) = false := by
    rw [beq_eq_false_iff_ne]
    exact fun he => hchange (Option.some.inj he).symm
  by_cases h0 : t0 ∈ standardTypes <;> by_cases h1 : t ∈ standardTypes
  case pos =>
    -- both types standard and different: folders differ
    have hio0 : includesOpt standardTypes (some t0) = true := by
      simp only [includesOpt]
      exact (fs_contains_iff standardTypes t0).2 h0
    have hio1 : includesOpt standardTypes (some t) = true := by
      simp only [includesOpt]
      exact (fs_contains_iff standardTypes t).2 h1
    have hlen : (moveTypeDir (some t0)).length ≠ (moveTypeDir (some t)).length := by
      have h0h := h0; have h1h := h1
      simp only [standardTypes, List.mem_cons, List.not_mem_nil, or_false] at h0h h1h
      rcases h0h with rfl | rfl | rfl <;> rcases h1h with rfl | rfl | rfl <;>
        first
        | exact absurd rfl hchange
        | decide
    have hpne := path_ne_of_dir_len _ _ name hlen
    constructor
    · intro hmem
      cases renameFails with
      | false =>
        simp [variantPut, htype, hbtype, hph, hio0, hio1, hjt, hbeq, htrph,
          hjoin, hbase, hmem, deleteFileFS, mem_fsAdd, mem_fsRemove, hpne]
      | true =>
        simp [variantPut, htype, hbtype, hph, hio0, hio1, hjt, hbeq, htrph,
          hjoin, hbase, hmem, deleteFileFS, mem_fsAdd, mem_fsRemove, hpne,
          Ne.symm hpne]
    · intro hmem
      simp [variantPut, htype, hbtype, hph, hio0, hio1, hjt, hbeq, htrph,
        hjoin, hbase, hmem, mergeBody]
  case neg =>
    -- t0 standard, t not: relocation to the `Other` folder
    have hio0 : includesOpt standardTypes (some t0) = true := by
      simp only [includesOpt]
      exact (fs_contains_iff standardTypes t0).2 h0
    have hio1 : includesOpt standardTypes (some t) = false := by
      simp only [includesOpt]
      rw [← Bool.not_eq_true]
      exact fun hx => h1 ((fs_contains_iff standardTypes t).1 hx)
    have hd1 : moveTypeDir (some t) = "Other" := moveTypeDir_not_std h1
    have hlen : (moveTypeDir (some t0)).length ≠ (moveTypeDir (some t)).length := by
      rw [hd1]
      have h0h := h0
      simp only [standardTypes, List.mem_cons, List.not_mem_nil, or_false] at h0h
      rcases h0h with rfl | rfl | rfl <;> decide
    have hpne := path_ne_of_dir_len _ _ name hlen
    constructor
    · intro hmem
      cases renameFails with
      | false =>
        simp [variantPut, htype, hbtype, hph, hio0, hio1, hjt, hbeq, htrph,
          hjoin, hbase, hmem, deleteFileFS, mem_fsAdd, mem_fsRemove, hpne]
      | true =>
        simp [variantPut, htype, hbtype, hph, hio0, hio1, hjt, hbeq, htrph,
          hjoin, hbase, hmem, deleteFileFS, mem_fsAdd, mem_fsRemove, hpne,
          Ne.symm hpne]
    · intro hmem
      simp [variantPut, htype, hbtype, hph, hio0, hio1, hjt, hbeq, htrph,
        hjoin, hbase, hmem, mergeBody]
  case pos =>
    -- t0 not standard, t standard
    have hio0 : includesOpt standardTypes (some t0) = false := by
      simp only [includesOpt]
      rw [← Bool.not_eq_true]
      exact fun hx => h0 ((fs_contains_iff standardTypes t0).1 hx)
    have hio1 : includesOpt standardTypes (some t) = true := by
      simp only [includesOpt]
      exact (fs_contains_iff standardTypes t).2 h1
    have hd0 : moveTypeDir (some t0) = "Other" := moveTypeDir_not_std h0
    have hlen : (moveTypeDir (some t0)).length ≠ (moveTypeDir (some t)).length := by
      rw [hd0]
      have h1h := h1
      simp only [standardTypes, List.mem_cons, List.not_mem_nil, or_false] at h1h
      rcases h1h with rfl | rfl | rfl <;> decide
    have hpne := path_ne_of_dir_len _ _ name hlen
    constructor
    · intro hmem
      cases renameFails with
      | false =>
        simp [variantPut, htype, hbtype, hph, hio0, hio1, hjt, hbeq, htrph,
          hjoin, hbase, hmem, deleteFileFS, mem_fsAdd, mem_fsRemove, hpne]
      | true =>
        simp [variantPut, htype, hbtype, hph, hio0, hio1, hjt, hbeq, htrph,
          hjoin, hbase, hmem, deleteFileFS, mem_fsAdd, mem_fsRemove, hpne,
          Ne.symm hpne]
    · intro hmem
      simp [variantPut, htype, hbtype, hph, hio0, hio1, hjt, hbeq, htrph,
        hjoin, hbase, hmem, mergeBody]
  case neg =>
    -- neither type standard: both folders are `Other`, nothing moves
    have hio0 : includesOpt standardTypes (some t0) = false := by
      simp only [includesOpt]
      rw [← Bool.not_eq_true]
      exact fun hx => h0 ((fs_contains_iff standardTypes t0).1 hx)
    have hio1 : includesOpt standardTypes (some t) = false := by
      simp only [includesOpt]
      rw [← Bool.not_eq_true]
      exact fun hx => h1 ((fs_contains_iff standardTypes t).1 hx)
    have hd0 : moveTypeDir (some t0) = "Other" := moveTypeDir_not_std h0
    have hd1 : moveTypeDir (some t) = "Other" := moveTypeDir_not_std h1
    constructor
    · intro hmem
      simp only [hd0, hd1] at hmem
      simp only [show ("uploads/" ++ "Other" ++ "/" ++ name : String)
        = "uploads/Other/" ++ name from by simp] at hmem
      simp [variantPut, htype, hbtype, hph, hio0, hio1, hjt, hbeq, htrph,
        mergeBody, hmem, hphform, hd0, hd1]
    · intro hmem
      simp [variantPut, htype, hbtype, hph, hio0, hio1, hjt, hbeq, htrph,
        mergeBody]

/-- C2 (witness): the amended theorem applied at a concrete input — moving
a `"Road"` report with photo `/uploads/road/p.jpg` to type `"Other"`
relocates the file into the `Other` folder and updates the stored path. -/
theorem variantPut_relocates_photo_witness :
    (variantPut (some { type := some "Road", photo := some "/uploads/road/p.jpg" })
        { type := some "Other" } none false false false
        ["uploads/road/p.jpg"]).status = 200 ∧
    (variantPut (some { type := some "Road", photo := some "/uploads/road/p.jpg" })
        { type := some "Other" } none false false false
        ["uploads/road/p.jpg"]).report.map ReportRec.photo
      = some (some ("/" ++ ("uploads/" ++ moveTypeDir (some "Other") ++ "/" ++ "p.jpg"))) ∧
    ("uploads/" ++ moveTypeDir (some "Other") ++ "/" ++ "p.jpg")
      ∈ (variantPut (some { type := some "Road", photo := some "/uploads/road/p.jpg" })
        { type := some "Other" } none false false false
        ["uploads/road/p.jpg"]).fs ∧
    (moveTypeDir (some "Road") = moveTypeDir (some "Other") ∨
      ("uploads/" ++ moveTypeDir (some "Road") ++ "/" ++ "p.jpg")
        ∉ (variantPut (some { type := some "Road", photo := some "/uploads/road/p.jpg" })
          { type := some "Other" } none false false false
          ["uploads/road/p.jpg"]).fs) := by
  exact (variantPut_relocates_photo
    { type := some "Road", photo := some "/uploads/road/p.jpg" }
    { type := some "Other" } false ["uploads/road/p.jpg"]
    "Road" "Other" "/uploads/road/p.jpg" "p.jpg"
    rfl rfl (by decide) (by decide) rfl (by decide) (by decide) (by decide)
    (by decide)).1 (by decide)

/-! ## DELETE /reports/:id (server.js 426-475) -/

/-- Models `new URL(u).pathname`: drop the scheme and host, keep the path
up to the query or fragment. -/
def urlPathname (u : String) : String :=
  let cs := u.toList
  let cs1 := if ("https://".toList).isPrefixOf cs then cs.drop 8
    else if ("http://".toList).isPrefixOf cs then cs.drop 7 else cs
  let afterHost := cs1.dropWhile (fun c => c != '/')
  String.mk (afterHost.takeWhile (fun c => c != '?' && c != '#'))

/-- Fuelled splitter on a multi-character separator (`s.split(sep)` in JS);
the fuel is the list length, which bounds the recursion. -/
def splitSeqAux (sep : List Char) : Nat → List Char → List Char → List (List Char)
  | _, [], acc => [acc.reverse]
  | 0, l, acc => [acc.reverse ++ l]
  | fuel + 1, x :: xs, acc =>
    if sep ≠ [] ∧ sep.isPrefixOf (x :: xs) then
      acc.reverse :: splitSeqAux sep fuel ((x :: xs).drop sep.length) []
    else splitSeqAux sep fuel xs (x :: acc)

/-- Models JS `s.split(sep)` for a string separator. -/
def splitSeq (sep s : String) : List String :=
  (splitSeqAux sep.toList (s.toList.length) s.toList []).map String.mk

/-- The GCS object key extracted from a stored photo URL by the DELETE
handler (server.js 444-457): signed-URL shapes containing `/o/` take the
segment after `/o/` up to a `?` (`decodeURIComponent` modelled as the
identity on the keys this app produces), direct URLs drop the bucket
segment and re-join the rest of the pathname. -/
def parseGcsKey (photo : String) : String :=
  let pn := urlPathname photo
  if strIncludes pn "/o/" then
    let objectPath := ((splitSeq "/o/" pn).drop 1).headD ""
    (splitChar '?' objectPath).headD ""
  else
    String.intercalate "/" ((splitChar '/' pn).drop 2)

/-- Result of a DELETE request: status, filesystem, cloud-store object
keys, whether the database record was deleted, and the event trace. -/
structure DRes where
  status : Nat
  fs : FS
  cloud : List String
  dbDeleted : Bool
  events : List Ev
deriving DecidableEq

/-- The DELETE /reports/:id handler (server.js 426-475).  A missing report
is a 404.  A non-empty photo starting with `/` is unlinked through
`deleteFile`, which swallows unlink errors (`unlinkFails`); a photo whose
URL contains a Google-Storage host is deleted from the bucket only when
the cloud backend is configured (`gcs`), and any failure there
(`cloudFails`) is caught and logged.  In every case the record itself is
then deleted and the response is a 200. -/
def serverDelete (gcs unlinkFails cloudFails : Bool)
    (report? : Option ReportRec) (fs : FS) (cloud : List String) : DRes :=
  match report? with
  | none => { status := 404, fs := fs, cloud := cloud, dbDeleted := false, events := [] }
  | some report =>
    if jsTruthy report.photo then
      let p := report.photo.getD ""
      if strStartsWith p "/" then
        { status := 200, fs := deleteFileFS unlinkFails fs (joinDirname p),
          cloud := cloud, dbDeleted := true,
          events := [Ev.fsUnlink (joinDirname p), Ev.dbDelete] }
      else if gcs && (strIncludes p "storage.googleapis.com"
          || strIncludes p "storage.cloud.google.com") then
        if cloudFails then
          { status := 200, fs := fs, cloud := cloud, dbDeleted := true,
            events := [Ev.dbDelete] }
        else
          { status := 200, fs := fs,
            cloud := fsRemove cloud (parseGcsKey p), dbDeleted := true,
            events := [Ev.dbDelete] }
      else
        { status := 200, fs := fs, cloud := cloud, dbDeleted := true,
          events := [Ev.dbDelete] }
    else
      { status := 200, fs := fs, cloud := cloud, dbDeleted := true,
        events := [Ev.dbDelete] }

/-! ## C3: delete cascade -/

/-- C3 (counterexample): the claim says the backend is inferred from the
reference's shape alone — a cloud host name in the URL means the cloud
object is deleted; but the handler also requires the cloud backend to be
configured, so under a local configuration a report whose photo is a
stored cloud URL is deleted with a 200 while the cloud object survives. -/
theorem delete_cloud_url_without_gcs_config :
    (serverDelete false false false
      (some { photo := some "https://storage.googleapis.com/b/uploads/other/x.jpg" })
      [] ["uploads/other/x.jpg"]).status = 200 ∧
    (serverDelete false false false
      (some { photo := some "https://storage.googleapis.com/b/uploads/other/x.jpg" })
      [] ["uploads/other/x.jpg"]).dbDeleted = true ∧
    (serverDelete false false false
      (some { photo := some "https://storage.googleapis.com/b/uploads/other/x.jpg" })
      [] ["uploads/other/x.jpg"]).cloud = ["uploads/other/x.jpg"] ∧
    parseGcsKey "https://storage.googleapis.com/b/uploads/other/x.jpg"
      = "uploads/other/x.jpg" := by
  refine ⟨by decide, by decide, by decide, by decide⟩

/-- C3 (amended): on deleting an existing report — with an empty or absent
photo, nothing but the database record is touched; with a photo starting
with `/`, the local file is unlinked (an unlink failure is swallowed) and
the record deletion and 200 are never blocked; with a cloud-host URL the
bucket object is deleted only when the cloud backend is configured, a
cloud failure again never blocking the record deletion or the 200; any
other reference shape (including a cloud URL under a local configuration)
deletes nothing. -/
theorem delete_cascade (gcs unlinkFails cloudFails : Bool)
    (report : ReportRec) (fs : FS) (cloud : List String) :
    (jsTruthy report.photo = false →
      serverDelete gcs unlinkFails cloudFails (some report) fs cloud
        = { status := 200, fs := fs, cloud := cloud, dbDeleted := true,
            events := [Ev.dbDelete] }) ∧
    (∀ p : String, report.photo = some p → strStartsWith p "/" = true →
      (serverDelete gcs unlinkFails cloudFails (some report) fs cloud).status = 200 ∧
      (serverDelete gcs unlinkFails cloudFails (some report) fs cloud).dbDeleted = true ∧
      (serverDelete gcs unlinkFails cloudFails (some report) fs cloud).cloud = cloud ∧
      (serverDelete gcs unlinkFails cloudFails (some report) fs cloud).fs
        = deleteFileFS unlinkFails fs (joinDirname p) ∧
      (unlinkFails = true →
        (serverDelete gcs unlinkFails cloudFails (some report) fs cloud).fs = fs)) ∧
    (∀ p : String, report.photo = some p → p ≠ "" → strStartsWith p "/" = false →
      (strIncludes p "storage.googleapis.com"
        || strIncludes p "storage.cloud.google.com") = true →
      (serverDelete gcs unlinkFails cloudFails (some report) fs cloud).status = 200 ∧
      (serverDelete gcs unlinkFails cloudFails (some report) fs cloud).dbDeleted = true ∧
      (serverDelete gcs unlinkFails cloudFails (some report) fs cloud).fs = fs ∧
      (serverDelete gcs unlinkFails cloudFails (some report) fs cloud).cloud
        = (if gcs && !cloudFails then fsRemove cloud (parseGcsKey p) else cloud)) := by
  refine ⟨?_, ?_, ?_⟩
  · intro hf
    simp [serverDelete, hf]
  · intro p hp hsw
    have hne : p ≠ "" := by
      intro hcon
      rw [hcon] at hsw
      exact absurd hsw (by decide)
    refine ⟨by simp [serverDelete, hp, jsTruthy, hne, hsw, deleteFileFS],
            by simp [serverDelete, hp, jsTruthy, hne, hsw, deleteFileFS],
            by simp [serverDelete, hp, jsTruthy, hne, hsw, deleteFileFS],
            by simp [serverDelete, hp, jsTruthy, hne, hsw, deleteFileFS], ?_⟩
    intro hu
    simp [serverDelete, hp, jsTruthy, hne, hsw, deleteFileFS, hu]
  · intro p hp hne hsw hcl
    cases gcs <;> cases cloudFails <;>
      refine ⟨by simp [serverDelete, hp, jsTruthy, hne, hsw, hcl],
              by simp [serverDelete, hp, jsTruthy, hne, hsw, hcl],
              by simp [serverDelete, hp, jsTruthy, hne, hsw, hcl],
              by simp [serverDelete, hp, jsTruthy, hne, hsw, hcl]⟩

/-- C3 (witness): the amended theorem applied at concrete inputs — a local
photo is unlinked alongside the record even though a cloud object list is
present, and an empty photo leaves the filesystem untouched. -/
theorem delete_cascade_witness :
    serverDelete false false false (some { photo := some "" })
        ["uploads/road/x.jpg"] []
      = { status := 200, fs := ["uploads/road/x.jpg"], cloud := [],
          dbDeleted := true, events := [Ev.dbDelete] } ∧
    (serverDelete false true false (some { photo := some "/uploads/road/x.jpg" })
        ["uploads/road/x.jpg"] []).fs = ["uploads/road/x.jpg"] ∧
    (serverDelete true false false
        (some { photo := some "https://storage.googleapis.com/b/uploads/other/x.jpg" })
        [] ["uploads/other/x.jpg"]).cloud
      = (if true && !false then
          fsRemove ["uploads/other/x.jpg"]
            (parseGcsKey "https://storage.googleapis.com/b/uploads/other/x.jpg")
        else ["uploads/other/x.jpg"]) := by
  refine ⟨?_, ?_, ?_⟩
  · exact (delete_cascade false false false { photo := some "" }
      ["uploads/road/x.jpg"] []).1 (by decide)
  · exact ((delete_cascade false true false { photo := some "/uploads/road/x.jpg" }
      ["uploads/road/x.jpg"] []).2.1 "/uploads/road/x.jpg" rfl (by decide)).2.2.2.2 rfl
  · exact ((delete_cascade true false false
      { photo := some "https://storage.googleapis.com/b/uploads/other/x.jpg" }
      [] ["uploads/other/x.jpg"]).2.2 "https://storage.googleapis.com/b/uploads/other/x.jpg"
      rfl (by decide) (by decide) (by decide)).2.2.2

/-! ## C8: file operations precede the database save -/

/-- C8 (confirmed): in all three write handlers — both PUT handlers and
POST — the `dbSave` event, when present, is the final event of the
request, so every file-system or cloud-storage operation (multer write,
GCS upload, old-photo unlink, relocation rename or copy+delete) has
already happened when the record carrying the new `photo` reference is
saved; and whenever a handler answers 500 (failed GCS upload, failed
relocation copy, failed coordinate cast) no `dbSave` occurs at all, so a
failed file operation never persists a new reference. -/
theorem save_is_last_event :
    (∀ (gcs : Bool) (gcsUp : Except Unit String) (unlinkFails : Bool)
      (old? : Option ReportRec) (body : ReqBody) (file? : Option UpFile) (fs0 : FS),
      saveIsFinal (serverPut gcs gcsUp unlinkFails old? body file? fs0).events = true ∧
      ((serverPut gcs gcsUp unlinkFails old? body file? fs0).status = 500 →
        hasSave (serverPut gcs gcsUp unlinkFails old? body file? fs0).events = false)) ∧
    (∀ (old? : Option ReportRec) (body : ReqBody) (file? : Option UpFile)
      (renameFails copyFails unlinkFails : Bool) (fs0 : FS),
      saveIsFinal (variantPut old? body file? renameFails copyFails unlinkFails fs0).events
        = true ∧
      ((variantPut old? body file? renameFails copyFails unlinkFails fs0).status = 500 →
        hasSave (variantPut old? body file? renameFails copyFails unlinkFails fs0).events
          = false)) ∧
    (∀ (gcs : Bool) (gcsUp : Except Unit String) (now : String) (body : ReqBody)
      (file? : Option UpFile) (fs0 : FS),
      saveIsFinal (serverPost gcs gcsUp now body file? fs0).events = true ∧
      ((serverPost gcs gcsUp now body file? fs0).status = 500 →
        hasSave (serverPost gcs gcsUp now body file? fs0).events = false)) := by
  refine ⟨?_, ?_, ?_⟩
  · intro gcs gcsUp unlinkFails old? body file? fs0
    cases old? <;> cases file? <;> cases gcs <;> cases gcsUp <;>
      refine ⟨?_, ?_⟩ <;>
      simp only [serverPut] <;>
      (try intro h500)
    all_goals repeat' split
    all_goals simp_all [saveIsFinal, hasSave]
  · intro old? body file? renameFails copyFails unlinkFails fs0
    cases old? <;> cases file? <;>
      refine ⟨?_, ?_⟩ <;>
      simp only [variantPut] <;>
      (try intro h500)
    all_goals repeat' split
    all_goals simp_all [saveIsFinal, hasSave]
  · intro gcs gcsUp now body file? fs0
    cases file? <;> cases gcs <;> cases gcsUp <;>
      refine ⟨?_, ?_⟩ <;>
      simp only [serverPost] <;>
      (try intro h500)
    all_goals repeat' split
    all_goals simp_all [saveIsFinal, hasSave]

/-- C8 (witness): the confirmed theorem applied at concrete inputs — a
failing GCS upload on PUT answers 500 and saves nothing, and a failing
relocation copy in the variant handler likewise. -/
theorem save_is_last_event_witness :
    hasSave (serverPut true (Except.error ()) false (some sampleReport)
      { type := some "Other" } (some ⟨"n.jpg"⟩) []).events = false ∧
    hasSave (variantPut (some sampleReport) { type := some "Other" } none
      true true false ["uploads/road/a.jpg"]).events = false := by
  constructor
  · exact (save_is_last_event.1 true (Except.error ()) false (some sampleReport)
      { type := some "Other" } (some ⟨"n.jpg"⟩) []).2 (by decide)
  · exact (save_is_last_event.2.1 (some sampleReport) { type := some "Other" }
      none true true false ["uploads/road/a.jpg"]).2 (by decide)

/-! ## C10: campus-boundary check fails closed (script.js 938-949, 697-703) -/

/-- The campus boundary polygon stored in `geoJsonPolygon` after the
GeoJSON loads: its `coordinates` member may be absent (`none`) when the
stored feature is malformed. -/
structure GeoPolygon where
  coordinates : Option (List (List (DecimalNum × DecimalNum)))

/-- `isPointInPolygon` (script.js 938-949): when the polygon or its
`coordinates` member is absent the function logs and returns `false`;
otherwise it delegates to `turf.booleanPointInPolygon` (abstracted here as
the parameter `turfInPoly`, taking the latitude, longitude and polygon
coordinates). -/
def isPointInPolygon
    (turfInPoly : DecimalNum → DecimalNum → List (List (DecimalNum × DecimalNum)) → Bool)
    (geo : Option GeoPolygon) (lat lng : DecimalNum) : Bool :=
  match geo with
  | none => false
  | some g =>
    match g.coordinates with
    | none => false
    | some coords => turfInPoly lat lng coords

/-- `addReportPopup` (script.js 697-703): the new-report form opens for a
map click exactly when `isPointInPolygon` accepts the clicked
coordinate. -/
def addReportPopupOpensForm
    (turfInPoly : DecimalNum → DecimalNum → List (List (DecimalNum × DecimalNum)) → Bool)
    (geo : Option GeoPolygon) (lat lng : DecimalNum) : Bool :=
  isPointInPolygon turfInPoly geo lat lng

/-- C10 (confirmed): the boundary check fails closed — for every
containment predicate and every coordinate, an unloaded polygon (absent
object or absent `coordinates`) makes `isPointInPolygon` return `false`,
so a map click never opens the new-report form until the boundary has
loaded. -/
theorem boundary_check_fails_closed
    (turfInPoly : DecimalNum → DecimalNum → List (List (DecimalNum × DecimalNum)) → Bool)
    (lat lng : DecimalNum) :
    isPointInPolygon turfInPoly none lat lng = false ∧
    isPointInPolygon turfInPoly (some ⟨none⟩) lat lng = false ∧
    addReportPopupOpensForm turfInPoly none lat lng = false ∧
    addReportPopupOpensForm turfInPoly (some ⟨none⟩) lat lng = false := by
  exact ⟨rfl, rfl, rfl, rfl⟩

end CampusSafety
